import Mathlib

/-!
Verification of the connection-readiness ("Session Guard") behaviour of
`telegram-api-service` (`app.py`, `boot.py`).

The embedding models the module's global connection state and the two
coordination functions `initialize_and_connect_telethon_client` and
`ensure_telethon_client_ready` of `app.py`, at two granularities:

* a sequential (single caller, no interleaving) functional semantics, used
  for the per-call claims;
* a small-step cooperative-concurrency semantics in which every `await` of a
  task or of network I/O is an explicit suspension point, used for the
  concurrency and timeout claims.

Telethon client objects are modelled as numbered handles carrying the three
observable bits the code consults: `connected` (`is_connected()`),
`authorized` (`is_user_authorized()`), and `disconnected` (whether
`disconnect()` has ever been called on the handle — no code path of
`app.py` calls it).  The outcome of one connect-and-authenticate attempt
(`client.start()` + `is_user_authorized()`) is an oracle value
`AttemptOutcome`, since it depends on the network and the session string.
-/

/-- Observable state of one Telethon client instance (one handle). -/
structure HandleInfo where
  connected : Bool
  authorized : Bool
  disconnected : Bool
deriving DecidableEq, Repr

/-- Environment-determined outcome of one connect attempt: whether
`client.start()` returns without raising (`startOk`; when it raises,
`startErrMsg` is the exception's message, which `app.py` prints and
swallows), and what `client.is_user_authorized()` reports afterwards. -/
structure AttemptOutcome where
  startOk : Bool
  startErrMsg : String
  authOk : Bool
deriving DecidableEq, Repr

/-- The module-level mutable state of `app.py`:
`client` (the global, `None` initially), the handle store (with `nextH` the
next fresh handle id), the state of `_telethon_client_startup_future`
(`futureDone` = it holds a result or exception, `futureExc` = the exception
set by `set_exception`, if any), and `attempts`, the number of
connect-and-authenticate sequences started so far. -/
structure GSt where
  client : Option Nat
  handles : Nat → HandleInfo
  nextH : Nat
  futureDone : Bool
  futureExc : Option String
  attempts : Nat

/-- Error messages raised by `ensure_telethon_client_ready` (`app.py`). -/
def msgInitFailed : String := "Initial Telegram client connection failed."

/-- Wrapper text of the `except Exception` clause of step 1 (line 88). -/
def msgInitWrapHead : String := "Unexpected error during initial client connection: "

/-- Message of the `asyncio.TimeoutError` branch of step 1 (line 85). -/
def msgInitTimeout : String := "Initial Telegram client connection timed out."

/-- Message of the `RuntimeError` raised when re-initialization fails (line 99). -/
def msgReinitFailed : String := "Telegram client failed to reconnect/re-initialize."

/-- Wrapper text of the `except Exception` clause of step 2 (line 109). -/
def msgReconnectWrapHead : String := "Telegram client failed to reconnect or verify authorization: "

/-- The `timeout=120` argument of `asyncio.wait_for` in step 1 (line 78). -/
def startupWaitTimeoutSeconds : Nat := 120

/-- Errors a call to `ensure_telethon_client_ready` can raise: the
`RuntimeError`s it raises itself, and the `asyncio.InvalidStateError` that
`_telethon_client_startup_future.set_result` raises when the future is
already resolved. -/
inductive EnsureErr where
  | runtimeError (msg : String)
  | invalidStateError
deriving DecidableEq, Repr

deriving instance DecidableEq for Except

/-- Sequential semantics of `initialize_and_connect_telethon_client`
(`app.py` lines 30–57).  The body: reassign the global `client` to a brand
new (unconnected) instance, `await client.start()` (on success the transport
is connected), then return `await client.is_user_authorized()`; any
exception is printed and swallowed, returning `False`. -/
def initialize_and_connect_telethon_client (st : GSt) (o : AttemptOutcome) : Bool × GSt :=
  let newId := st.nextH
  -- client = TelegramClient(StringSession(...), ...): the global is
  -- reassigned to the new, not-yet-connected instance (line 39)
  let st1 : GSt := { st with
    client := some newId
    handles := Function.update st.handles newId ⟨false, o.authOk, false⟩
    nextH := st.nextH + 1
    attempts := st.attempts + 1 }
  if o.startOk then
    -- await client.start() completed (line 42)
    let st2 : GSt := { st1 with
      handles := Function.update st1.handles newId ⟨true, o.authOk, false⟩ }
    -- if await client.is_user_authorized(): return True else return False
    ((st2.handles newId).authorized, st2)
  else
    -- except Exception as e: print + traceback, return False (lines 52–57)
    (false, st1)

/-- What one call's environment decides: whether the 120 s `asyncio.wait_for`
of step 1 elapses before the startup task completes, and the outcome of the
connect attempt the call performs (if it performs one). -/
structure EnsureInput where
  timeoutFires : Bool
  attempt : AttemptOutcome
deriving DecidableEq, Repr

/-- The liveness probe of step 2 (line 94):
`client and client.is_connected() and await client.is_user_authorized()`.
The probe is modelled as reading the handle's two status bits (it does not
itself fail). -/
def probeOk (st : GSt) : Bool :=
  match st.client with
  | none => false
  | some h => (st.handles h).connected && (st.handles h).authorized

/-- Step 2 of `ensure_telethon_client_ready` (lines 90–109): if the probe
fails, re-run `initialize_and_connect_telethon_client`; when that returns
`False`, a `RuntimeError` (line 99) is caught by the `except` clause, which
sets the startup future's exception if the future is still pending and
re-raises a wrapped `RuntimeError` (line 109).  The third component counts
the connect-and-authenticate sequences this step starts. -/
def ensureStep2 (st : GSt) (o : AttemptOutcome) : Except EnsureErr Unit × GSt × Nat :=
  if probeOk st then (.ok (), st, 0)
  else
    match initialize_and_connect_telethon_client st o with
    | (true, st1) => (.ok (), st1, 1)
    | (false, st1) =>
      let st2 : GSt := if st1.futureDone then st1
        else { st1 with futureDone := true, futureExc := some msgReinitFailed }
      (.error (.runtimeError (msgReconnectWrapHead ++ msgReinitFailed)), st2, 1)

/-- Sequential semantics of a whole `ensure_telethon_client_ready` call
(lines 60–112).  Step 1 (client is `None`): schedule the startup task, mark
the future (`set_result` raises `InvalidStateError` if it is already done —
the scheduled task still runs afterwards), then wait up to 120 s for the
task; on timeout `asyncio.wait_for` cancels the task (modelled as cancelled
at its first suspension point, `await client.start()`, so the new handle is
already published but unconnected); on task failure raise the wrapped
`RuntimeError` of line 88.  Then step 2 (`ensureStep2`).  Returns (result,
final state, number of connect sequences started by this call). -/
def ensure_telethon_client_ready_seq (st : GSt) (inp : EnsureInput) :
    Except EnsureErr Unit × GSt × Nat :=
  match st.client with
  | some _ => ensureStep2 st inp.attempt
  | none =>
    if st.futureDone then
      -- _startup_task = asyncio.create_task(...) has scheduled the task;
      -- _telethon_client_startup_future.set_result(None) raises
      -- InvalidStateError (line 73); the task still runs in the background
      let r := initialize_and_connect_telethon_client st inp.attempt
      (.error .invalidStateError, r.2, 1)
    else
      let st1 : GSt := { st with futureDone := true }
      if inp.timeoutFires then
        let st2 : GSt := { st1 with
          client := some st1.nextH
          handles := Function.update st1.handles st1.nextH ⟨false, inp.attempt.authOk, false⟩
          nextH := st1.nextH + 1
          attempts := st1.attempts + 1 }
        (.error (.runtimeError msgInitTimeout), st2, 1)
      else
        match initialize_and_connect_telethon_client st1 inp.attempt with
        | (true, st2) =>
          let r2 := ensureStep2 st2 inp.attempt
          (r2.1, r2.2.1, r2.2.2 + 1)
        | (false, st2) =>
          (.error (.runtimeError (msgInitWrapHead ++ msgInitFailed)), st2, 1)

/-! ### The boot module (`boot.py`)

`boot.py` executes `from app import client, startup_telethon_client,
connection_future` at module level before defining `before_serve`.  A Python
`from`-import binds the requested names left to right and raises
`ImportError` at the first name the source module does not define. -/

/-- The names bound at module level by executing `app.py` top to bottom:
imports, configuration globals, the Flask app, the three connection-state
globals, and the defined functions. -/
def appModuleNames : List String :=
  ["os", "asyncio", "sys", "traceback", "Flask", "request", "jsonify",
   "TelegramClient", "events", "StringSession", "Channel", "Chat", "User",
   "load_dotenv", "API_ID", "API_HASH", "TELETHON_STRING_SESSION", "app",
   "client", "_telethon_client_startup_future", "_startup_task",
   "initialize_and_connect_telethon_client", "ensure_telethon_client_ready",
   "home", "search_entities", "get_messages", "get_members"]

/-- The names `boot.py` line 9 requests from `app`. -/
def bootImportList : List String := ["client", "startup_telethon_client", "connection_future"]

/-- First requested name the source module does not define, if any
(a `from`-import raises `ImportError` there). -/
def pythonFromImport (defined : List String) : List String → Option String
  | [] => none
  | n :: ns => if defined.contains n then pythonFromImport defined ns else some n

/-- Result of importing `boot.py`: either the module-level import fails, or
the module loads and `before_serve` gets defined. -/
inductive BootLoad where
  | importError (missing : String)
  | loaded (beforeServeDefined : Bool)
deriving DecidableEq, Repr

/-- Loading `boot.py`: the `from app import ...` line runs before the
`before_serve` definition; if it raises, the hook is never defined. -/
def loadBootModule : BootLoad :=
  match pythonFromImport appModuleNames bootImportList with
  | some n => .importError n
  | none => .loaded true

/-! ### Small-step cooperative-concurrency semantics

`app.py` runs under an asyncio event loop: many `ensure_telethon_client_ready`
coroutines (one per request) plus the startup task created by step 1
interleave at their `await` suspension points.  Code between two suspension
points is atomic.  Suspension points of `ensure_telethon_client_ready`:
`await asyncio.wait_for(_startup_task, timeout=120)` (line 78),
`await client.is_user_authorized()` in the probe (line 94), and, inside an
inline `await initialize_and_connect_telethon_client()` (line 96), the
`await client.start()` (line 42) and `await client.is_user_authorized()`
(line 45).  Awaiting a coroutine directly (line 96) does not yield to the
loop: the coroutine's body runs in the same atomic segment up to its first
true suspension point.  Inside `initialize_and_connect_telethon_client`,
every occurrence of `client` rereads the global at the moment the expression
is evaluated. -/

/-- Ways a coroutine of the model finishes. -/
inductive CoResult where
  | ok
  | err (e : EnsureErr)
  | taskRes (b : Bool)
  | cancelled
deriving DecidableEq, Repr

/-- Program counter of one coroutine, at a suspension point (or at entry, or
finished).  `e...` states belong to an `ensure_telethon_client_ready` caller,
`t...` states to the startup task running
`initialize_and_connect_telethon_client`; `k` is the attempt index (into the
outcome oracle), `h` the handle id the pending `await` was issued on. -/
inductive CoPC where
  | eStart
  | eWaitStartup (task : Nat)
  | eProbeAuth (h : Nat)
  | eInitAfterStart (k h : Nat)
  | eInitAfterAuth (h : Nat)
  | tStart
  | tAfterStart (k h : Nat)
  | tAfterAuth (h : Nat)
  | done (r : CoResult)
deriving DecidableEq, Repr

/-- A configuration: the module globals plus every live coroutine's pc. -/
structure Conf where
  g : GSt
  cos : List CoPC

/-- Outcome oracle lookup: outcome of the `k`-th connect attempt. -/
def getO (o : List AttemptOutcome) (k : Nat) : AttemptOutcome :=
  o.getD k ⟨true, "", true⟩

/-- Mark handle `h` connected (the effect of `await client.start()`
completing on the instance the call was issued on). -/
def setConn (hs : Nat → HandleInfo) (h : Nat) : Nat → HandleInfo :=
  Function.update hs h { hs h with connected := true }

/-- The synchronous head of `initialize_and_connect_telethon_client`
(line 39): allocate a new instance, reassign the global `client` to it, and
stop at `await client.start()`.  Returns (attempt index, new handle id,
state). -/
def startAttempt (o : List AttemptOutcome) (g : GSt) : Nat × Nat × GSt :=
  let k := g.attempts
  let h := g.nextH
  (k, h, { g with
    client := some h
    handles := Function.update g.handles h ⟨false, (getO o k).authOk, false⟩
    nextH := g.nextH + 1
    attempts := g.attempts + 1 })

/-- The synchronous part of step 2 (line 94): read the global `client`; if
it is set and connected, suspend at the probe's `is_user_authorized`;
otherwise the probe has already failed and the inline
`initialize_and_connect_telethon_client()` runs up to `await client.start()`
in the same segment. -/
def step2Sync (o : List AttemptOutcome) (g : GSt) : CoPC × GSt :=
  match g.client with
  | some h =>
    if (g.handles h).connected then (.eProbeAuth h, g)
    else
      let r := startAttempt o g
      (.eInitAfterStart r.1 r.2.1, r.2.2)
  | none =>
    let r := startAttempt o g
    (.eInitAfterStart r.1 r.2.1, r.2.2)

/-- Step-2 failure: the `RuntimeError` of line 99 is caught at line 102,
the future's exception is set if it is still pending (lines 107–108), and
the wrapped `RuntimeError` of line 109 is raised to the caller. -/
def wrapReinitFail (g : GSt) : CoPC × GSt :=
  let g1 := if g.futureDone then g
    else { g with futureDone := true, futureExc := some msgReinitFailed }
  (.done (.err (.runtimeError (msgReconnectWrapHead ++ msgReinitFailed))), g1)

/-- Events the scheduler can deliver: resume coroutine `i` (its pending
`await` completed), or fire the 120 s `wait_for` timeout of coroutine `i`.
An event that does not apply to the coroutine's state is a no-op. -/
inductive Ev where
  | run (i : Nat)
  | timeout (i : Nat)
deriving DecidableEq, Repr

/-- Resume coroutine `i` and run its next atomic segment. -/
def stepCo (o : List AttemptOutcome) (c : Conf) (i : Nat) : Conf :=
  match c.cos.getD i (.done .ok) with
  | .eStart =>
    match c.g.client with
    | none =>
      -- step 1 (lines 70–74): create the startup task, then set_result
      let taskIdx := c.cos.length
      let cos1 := c.cos ++ [CoPC.tStart]
      if c.g.futureDone then
        -- set_result on a resolved future: InvalidStateError; the task
        -- just created stays scheduled
        { g := c.g, cos := cos1.set i (.done (.err .invalidStateError)) }
      else
        { g := { c.g with futureDone := true }, cos := cos1.set i (.eWaitStartup taskIdx) }
    | some h =>
      if (c.g.handles h).connected then
        { c with cos := c.cos.set i (.eProbeAuth h) }
      else
        let r := startAttempt o c.g
        { g := r.2.2, cos := c.cos.set i (.eInitAfterStart r.1 r.2.1) }
  | .eProbeAuth h =>
    if (c.g.handles h).authorized then
      { c with cos := c.cos.set i (.done .ok) }
    else
      let r := startAttempt o c.g
      { g := r.2.2, cos := c.cos.set i (.eInitAfterStart r.1 r.2.1) }
  | .eInitAfterStart k h =>
    if (getO o k).startOk then
      let g1 := { c.g with handles := setConn c.g.handles h }
      -- line 45 rereads the global client for is_user_authorized
      let h2 := g1.client.getD h
      { g := g1, cos := c.cos.set i (.eInitAfterAuth h2) }
    else
      let r := wrapReinitFail c.g
      { g := r.2, cos := c.cos.set i r.1 }
  | .eInitAfterAuth h =>
    if (c.g.handles h).authorized then
      { c with cos := c.cos.set i (.done .ok) }
    else
      let r := wrapReinitFail c.g
      { g := r.2, cos := c.cos.set i r.1 }
  | .tStart =>
    let r := startAttempt o c.g
    { g := r.2.2, cos := c.cos.set i (.tAfterStart r.1 r.2.1) }
  | .tAfterStart k h =>
    if (getO o k).startOk then
      let g1 := { c.g with handles := setConn c.g.handles h }
      let h2 := g1.client.getD h
      { g := g1, cos := c.cos.set i (.tAfterAuth h2) }
    else
      { c with cos := c.cos.set i (.done (.taskRes false)) }
  | .tAfterAuth h =>
    { c with cos := c.cos.set i (.done (.taskRes ((c.g.handles h).authorized))) }
  | .eWaitStartup t =>
    match c.cos.getD t (.done .ok) with
    | .done (.taskRes true) =>
      -- fall through to step 2 on the current global client
      let r := step2Sync o c.g
      { g := r.2, cos := c.cos.set i r.1 }
    | .done (.taskRes false) =>
      -- raise RuntimeError (line 81), rewrapped by the except at line 88
      { c with cos := c.cos.set i (.done (.err (.runtimeError (msgInitWrapHead ++ msgInitFailed)))) }
    | _ => c
  | .done _ => c

/-- The 120 s `asyncio.wait_for` of coroutine `i` times out: `wait_for`
cancels the awaited startup task (wherever it is suspended) and raises
`asyncio.TimeoutError` in the caller, which line 85 turns into a
`RuntimeError`.  If the task has already finished, the wait cannot time
out. -/
def stepTimeout (c : Conf) (i : Nat) : Conf :=
  match c.cos.getD i (.done .ok) with
  | .eWaitStartup t =>
    match c.cos.getD t (.done .ok) with
    | .done _ => c
    | _ =>
      let cos1 := c.cos.set t (.done .cancelled)
      { c with cos := cos1.set i (.done (.err (.runtimeError msgInitTimeout))) }
  | _ => c

/-- One scheduler step. -/
def step (o : List AttemptOutcome) (c : Conf) : Ev → Conf
  | .run i => stepCo o c i
  | .timeout i => stepTimeout c i

/-- Run a schedule (a list of events). -/
def runEvs (o : List AttemptOutcome) (c : Conf) (evs : List Ev) : Conf :=
  evs.foldl (step o) c

/-- Is a coroutine in the middle of a connect-and-authenticate sequence
(one that has started and not yet finished)? -/
def pcInFlight : CoPC → Bool
  | .eInitAfterStart _ _ => true
  | .eInitAfterAuth _ => true
  | .tAfterStart _ _ => true
  | .tAfterAuth _ => true
  | _ => false

/-- Number of connect-and-authenticate sequences currently in flight. -/
def inFlight (c : Conf) : Nat := (c.cos.filter pcInFlight).length

/-- The pc of coroutine `i`. -/
def cosAt (c : Conf) (i : Nat) : CoPC := c.cos.getD i (.done .ok)

/-- The module state right after `app.py` is imported: `client = None`, the
future pending, no handle yet. -/
def g0 : GSt :=
  { client := none, handles := fun _ => ⟨false, false, false⟩, nextH := 0,
    futureDone := false, futureExc := none, attempts := 0 }

/-- `n` concurrent `ensure_telethon_client_ready` callers on the fresh
module state. -/
def confN (n : Nat) : Conf := { g := g0, cos := List.replicate n .eStart }

/-- Oracle: one attempt, which succeeds. -/
def oGood1 : List AttemptOutcome := [⟨true, "", true⟩]

/-- Oracle: two attempts, both of which succeed. -/
def oGood2 : List AttemptOutcome := [⟨true, "", true⟩, ⟨true, "", true⟩]

/-! ### The API endpoints (`app.py` lines 116–310)

Each handler awaits `ensure_telethon_client_ready()` inside a `try` and
turns any exception into a 503 response; only afterwards does it touch the
Telegram client.  Entities, messages and participants yielded by the
Telethon iterators, and the result of `client.get_entity`, are oracle
inputs.  Each handler result records the HTTP status, the body, and
`tgCalls`, the number of Telegram client operations the handler performed
(`iter_dialogs`, `get_entity`, `iter_messages`, `iter_participants`). -/

/-- A Telegram entity as the handlers observe it.  `user`s have a
`first_name` attribute (possibly `None`) and no `title`; `chat`s (small
groups) have a `title` and neither `username` nor the supergroup flags;
`channel`s have `title`, optional `username` and the `megagroup` /
`broadcast` / `gigagroup` flags.  Python's `getattr(x, a, d)` falls back to
`d` only when the attribute is missing, and accessing a missing attribute
directly raises `AttributeError`. -/
inductive TEntity where
  | user (eid : Nat) (firstName : Option String) (username : Option String)
  | chat (eid : Nat) (title : String)
  | channel (eid : Nat) (title : String) (username : Option String)
      (megagroup broadcast gigagroup : Bool)
deriving DecidableEq, Repr

/-- The entity's id. -/
def TEntity.eid : TEntity → Nat
  | .user i _ _ => i
  | .chat i _ => i
  | .channel i _ _ _ _ _ => i

/-- Evaluating `entity.first_name`: only `User` has the attribute; on the
other classes the access raises `AttributeError`. -/
def firstNameAttr : TEntity → Except Unit (Option String)
  | .user _ fn _ => .ok fn
  | _ => .error ()

/-- `getattr(entity, 'title', d)` once the default `d` is at hand. -/
def titleAttrOr (e : TEntity) (d : Option String) : Option String :=
  match e with
  | .user _ _ _ => d
  | .chat _ t => some t
  | .channel _ t _ _ _ _ => some t

/-- `getattr(entity, 'title', d)` with a string default. -/
def titleAttrOrStr (e : TEntity) (d : String) : String :=
  match e with
  | .user _ _ _ => d
  | .chat _ t => t
  | .channel _ t _ _ _ _ => t

/-- `getattr(entity, 'username', None)`. -/
def usernameAttr : TEntity → Option String
  | .user _ _ u => u
  | .chat _ _ => none
  | .channel _ _ u _ _ _ => u

/-- The `entity_type` chain of `search_entities` (lines 151–161): start at
`"channel"`, then User → `"user"`, Chat → `"group"`, Channel with
`megagroup` → `"group"`, Channel with `broadcast` → `"channel"`, anything
else → `"unknown"`. -/
def entityTypeOf : TEntity → String
  | .user _ _ _ => "user"
  | .chat _ _ => "group"
  | .channel _ _ _ mg bc _ => if mg then "group" else if bc then "channel" else "unknown"

/-- `getattr(entity,'broadcast',False) or getattr(entity,'megagroup',False)
or getattr(entity,'gigagroup',False)` (line 169). -/
def isPublicOf : TEntity → Bool
  | .user _ _ _ => false
  | .chat _ _ => false
  | .channel _ _ _ mg bc gg => bc || mg || gg

/-- Python truthiness of an optional string: `None` and `''` are falsy. -/
def optTruthy : Option String → Bool
  | some s => !s.isEmpty
  | none => false

/-- Python's `str.lower()` (ASCII case folding suffices here), as the
lowered character list. -/
def pyLower (s : String) : List Char := s.data.map Char.toLower

/-- Is `needle` a prefix of the character list? -/
def listPrefixOf : List Char → List Char → Bool
  | [], _ => true
  | _ :: _, [] => false
  | a :: as, b :: bs => a == b && listPrefixOf as bs

/-- Helper for substring search: does the haystack list contain `needle`? -/
def strContainsAux (needle : List Char) : List Char → Bool
  | [] => needle.isEmpty
  | c :: cs => listPrefixOf needle (c :: cs) || strContainsAux needle cs

/-- Python's `needle in hay` on character lists. -/
def strContainsL (hay needle : List Char) : Bool := strContainsAux needle hay

/-- Python's `needle in hay` on strings. -/
def strContains (hay needle : String) : Bool := strContainsAux needle.data hay.data

/-- Python's `str.isdigit()`: non-empty and all digits. -/
def pyIsDigit (s : String) : Bool := !s.isEmpty && s.data.all Char.isDigit

/-- One element of the JSON list `search_entities` returns
(lines 163–170). -/
structure Entry where
  eid : Nat
  title : Option String
  username : Option String
  link : Option String
  etype : String
  isPublic : Bool
deriving DecidableEq, Repr

/-- The per-dialog body of the scan loop (lines 145–170 up to the append):
`title = getattr(entity, 'title', entity.first_name)` — Python evaluates
the default `entity.first_name` first, so the line raises `AttributeError`
for any non-`User` dialog; then the keyword match, where
`title.lower()` raises if `title` is `None`.  Returns the entry appended,
`none` when the dialog does not match, `.error` when the body raises. -/
def scanDialog (kw : String) (e : TEntity) : Except Unit (Option Entry) :=
  match firstNameAttr e with
  | .error _ => .error ()
  | .ok fn =>
    match titleAttrOr e fn with
    | none => .error ()
    | some title =>
      let uname := usernameAttr e
      let link := if optTruthy uname then some ("https://t.me/" ++ uname.getD "") else none
      if strContainsL (pyLower title) (pyLower kw)
          || (optTruthy uname && strContainsL (pyLower (uname.getD "")) (pyLower kw)) then
        .ok (some ⟨e.eid, some title, uname, link, entityTypeOf e, isPublicOf e⟩)
      else .ok none

/-- The dialog-scan loop of `search_entities` (lines 145–172): iterate the
dialogs, append each match, and break once `len(results) >= limit` — the
length check runs only after an append. -/
def searchScan (kw : String) (limit : Int) : List TEntity → List Entry → Except Unit (List Entry)
  | [], acc => .ok acc
  | e :: es, acc =>
    match scanDialog kw e with
    | .error _ => .error ()
    | .ok none => searchScan kw limit es acc
    | .ok (some entry) =>
      let acc1 := acc ++ [entry]
      if limit ≤ (acc1.length : Int) then .ok acc1
      else searchScan kw limit es acc1

/-- The guard of the direct-resolution fallback (line 174): the keyword
starts with `@` or is all digits, and no scanned entry already has that
username or id. -/
def fallbackWanted (kw : String) (rs : List Entry) : Bool :=
  (listPrefixOf "@".data kw.data || pyIsDigit kw)
    && !(rs.any fun r => r.username == some kw || toString r.eid == kw)

/-- Building the fallback entry from a resolved entity (lines 176–195):
`getattr(resolved_entity, 'title', resolved_entity.first_name)` again
evaluates `first_name` eagerly, and the resulting `AttributeError` for
non-`User` entities is caught by the inner `except` (line 196), adding
nothing. -/
def resolveEntry (e : TEntity) : Option Entry :=
  match firstNameAttr e with
  | .error _ => none
  | .ok fn =>
    let uname := usernameAttr e
    let link := if optTruthy uname then some ("https://t.me/" ++ uname.getD "") else none
    some ⟨e.eid, titleAttrOr e fn, uname, link, entityTypeOf e, isPublicOf e⟩

/-- Request body of `/search_entities` after parsing: `data.get('keyword')`
and `int(data.get('limit', 5))`. -/
structure SearchReq where
  keyword : Option String
  limit : Int
deriving DecidableEq, Repr

/-- Body of a `/search_entities` response. -/
inductive SearchBody where
  | errMsg (s : String)
  | entries (rs : List Entry)
deriving DecidableEq, Repr

/-- A `/search_entities` response. -/
structure SearchOut where
  status : Nat
  body : SearchBody
  tgCalls : Nat
  st : GSt

/-- The `/search_entities` handler (lines 126–203).  `dialogs` is what
`client.iter_dialogs()` yields; `resolved` the result of
`client.get_entity(keyword)` in the fallback (`none` = it raised, which the
inner `except` logs and swallows). -/
def search_entities (st : GSt) (inp : EnsureInput) (req : SearchReq)
    (dialogs : List TEntity) (resolved : Option TEntity) : SearchOut :=
  match ensure_telethon_client_ready_seq st inp with
  | (.error e, st1, _) =>
    { status := 503,
      body := .errMsg ("Telegram client not ready: " ++
        (match e with
         | .runtimeError m => m
         | .invalidStateError => "InvalidStateError")),
      tgCalls := 0, st := st1 }
  | (.ok _, st1, _) =>
    match req.keyword with
    | none => { status := 400, body := .errMsg "Keyword is required", tgCalls := 0, st := st1 }
    | some kw =>
      if kw.isEmpty then
        { status := 400, body := .errMsg "Keyword is required", tgCalls := 0, st := st1 }
      else
        match searchScan kw req.limit dialogs [] with
        | .error _ => { status := 500, body := .errMsg "AttributeError", tgCalls := 1, st := st1 }
        | .ok rs =>
          if fallbackWanted kw rs then
            match resolved with
            | some e =>
              match resolveEntry e with
              | some entry =>
                { status := 200, body := .entries (rs ++ [entry]), tgCalls := 2, st := st1 }
              | none => { status := 200, body := .entries rs, tgCalls := 2, st := st1 }
            | none => { status := 200, body := .entries rs, tgCalls := 2, st := st1 }
          else { status := 200, body := .entries rs, tgCalls := 1, st := st1 }

/-- The `/` handler (lines 116–124): the readiness failure is reported in
the body with status 503; success is a plain 200 text. -/
def home (st : GSt) (inp : EnsureInput) : Nat × String × GSt :=
  match ensure_telethon_client_ready_seq st inp with
  | (.ok _, st1, _) =>
    (200, "Telegram Scraper API is running and Telethon client is connected!", st1)
  | (.error e, st1, _) =>
    (503, "Telegram Scraper API is running, but Telethon client is not connected: " ++
      (match e with
       | .runtimeError m => m
       | .invalidStateError => "InvalidStateError"), st1)

/-- A message sender as `get_messages` observes it: a user (with a
`first_name` / `last_name` attribute, each possibly `None`) or a
channel/chat sender (no name attributes, so `getattr(..., '', )` yields the
default `''`). -/
inductive TSender where
  | user (sid : Nat) (firstName lastName : Option String)
  | chan (sid : Nat)
deriving DecidableEq, Repr

/-- The sender's `id` attribute (both kinds have one). -/
def TSender.sid : TSender → Nat
  | .user i _ _ => i
  | .chan i => i

/-- `getattr(message.sender, 'first_name', '')`. -/
def senderFirstAttr : TSender → Option String
  | .user _ fn _ => fn
  | .chan _ => some ""

/-- `getattr(message.sender, 'last_name', '')`. -/
def senderLastAttr : TSender → Option String
  | .user _ _ ln => ln
  | .chan _ => some ""

/-- One message as yielded by `client.iter_messages` (only the attributes
the handler reads). -/
structure TMessage where
  mid : Nat
  text : Option String
  dateIso : Option String
  sender : Option TSender
  post : Bool
  views : Option Nat
  repliesCnt : Option Nat
  url : Option String
deriving DecidableEq, Repr

/-- The sender_name / sender_id computation of `get_messages`
(lines 236–244): start from `first_name` (default `''`), append
`' ' + last_name` when `last_name` is truthy (raising `TypeError` when
`first_name` is `None`), and if the result is falsy fall back to
`getattr(entity, 'title', 'Channel/Group')`. -/
def senderNameId (ent : TEntity) : Option TSender → Except Unit (String × Option Nat)
  | none => .ok ("Unknown", none)
  | some s =>
    let fn := senderFirstAttr s
    match (if optTruthy (senderLastAttr s) then
        (match fn with
         | some f => Except.ok (some (f ++ " " ++ (senderLastAttr s).getD ""))
         | none => Except.error ())
      else Except.ok fn : Except Unit (Option String)) with
    | .error _ => .error ()
    | .ok n1 =>
      if optTruthy n1 then .ok (n1.getD "", some s.sid)
      else .ok (titleAttrOrStr ent "Channel/Group", some s.sid)

/-- One element of the JSON list `get_messages` returns (lines 246–256). -/
structure MsgEntry where
  mid : Nat
  text : Option String
  date : Option String
  senderId : Option Nat
  senderName : String
  isChannelPost : Bool
  views : Option Nat
  replies : Nat
  link : Option String
deriving DecidableEq, Repr

/-- Build the dict appended for one message (lines 246–256). -/
def buildMsgEntry (ent : TEntity) (m : TMessage) : Except Unit MsgEntry :=
  match senderNameId ent m.sender with
  | .error _ => .error ()
  | .ok (sname, sid) =>
    .ok ⟨m.mid, m.text, m.dateIso, sid, sname, m.post, m.views, m.repliesCnt.getD 0, m.url⟩

/-- The message loop of `get_messages` (lines 235–256). -/
def buildMessages (ent : TEntity) : List TMessage → Except Unit (List MsgEntry)
  | [] => .ok []
  | m :: ms =>
    match buildMsgEntry ent m with
    | .error _ => .error ()
    | .ok e =>
      match buildMessages ent ms with
      | .error _ => .error ()
      | .ok es => .ok (e :: es)

/-- The `entity_id` / `entity_username` value after
`data.get('entity_id') or data.get('entity_username')`: an int, a string,
or some other truthy JSON value (which matches neither `isinstance`
check, so the entity stays `None`). -/
inductive JVal where
  | int (n : Int)
  | str (s : String)
  | other
deriving DecidableEq, Repr

/-- Request body of `/get_messages`. -/
structure MessagesReq where
  entityIdent : Option JVal
  limit : Int
  offsetId : Int
deriving DecidableEq, Repr

/-- Body of a `/get_messages` response. -/
inductive MessagesBody where
  | errMsg (s : String)
  | entries (ms : List MsgEntry)
deriving DecidableEq, Repr

/-- A `/get_messages` response. -/
structure MessagesOut where
  status : Nat
  body : MessagesBody
  tgCalls : Nat
  st : GSt

/-- The `/get_messages` handler (lines 206–261).  `resolveRes` is the
result of `client.get_entity` (`.error m` = it raised, caught by the outer
`except` → 500); `msgs` is what `client.iter_messages(entity, limit=...,
offset_id=...)` yields. -/
def get_messages (st : GSt) (inp : EnsureInput) (req : MessagesReq)
    (resolveRes : Except String TEntity) (msgs : List TMessage) : MessagesOut :=
  match ensure_telethon_client_ready_seq st inp with
  | (.error e, st1, _) =>
    { status := 503,
      body := .errMsg ("Telegram client not ready: " ++
        (match e with
         | .runtimeError m => m
         | .invalidStateError => "InvalidStateError")),
      tgCalls := 0, st := st1 }
  | (.ok _, st1, _) =>
    match req.entityIdent with
    | none =>
      { status := 400, body := .errMsg "Either entity_id or entity_username is required",
        tgCalls := 0, st := st1 }
    | some .other =>
      -- neither isinstance branch fires: entity stays None → 404 (line 233)
      { status := 404, body := .errMsg "Entity not found or could not be resolved",
        tgCalls := 0, st := st1 }
    | some _ =>
      match resolveRes with
      | .error m => { status := 500, body := .errMsg m, tgCalls := 1, st := st1 }
      | .ok ent =>
        match buildMessages ent msgs with
        | .error _ => { status := 500, body := .errMsg "TypeError", tgCalls := 2, st := st1 }
        | .ok ms => { status := 200, body := .entries ms, tgCalls := 2, st := st1 }

/-- One participant as yielded by `client.iter_participants` (only the
attributes the handler reads; `status` is `str(participant.status)` when
set). -/
structure TParticipant where
  pid : Nat
  firstName : Option String
  lastName : Option String
  username : Option String
  phone : Option String
  status : Option String
  bot : Bool
deriving DecidableEq, Repr

/-- One element of the JSON list `get_members` returns (lines 294–302). -/
structure MemberEntry where
  pid : Nat
  firstName : Option String
  lastName : Option String
  username : Option String
  phone : Option String
  status : String
  isBot : Bool
deriving DecidableEq, Repr

/-- Build the dict appended for one participant (lines 294–302). -/
def buildMember (p : TParticipant) : MemberEntry :=
  ⟨p.pid, p.firstName, p.lastName, p.username, p.phone, p.status.getD "Unknown", p.bot⟩

/-- The member-type gate of `get_members` (line 292):
`isinstance(entity, (Channel, Chat)) and (entity.megagroup or
entity.gigagroup)`.  A `Chat` has neither flag, so the attribute access
raises `AttributeError` (caught by the outer `except` → 500). -/
def membersGate (e : TEntity) : Except Unit Bool :=
  match e with
  | .user _ _ _ => .ok false
  | .chat _ _ => .error ()
  | .channel _ _ _ mg _ gg => .ok (mg || gg)

/-- Request body of `/get_members`. -/
structure MembersReq where
  entityIdent : Option JVal
  limit : Int
deriving DecidableEq, Repr

/-- Body of a `/get_members` response. -/
inductive MembersBody where
  | errMsg (s : String)
  | entries (ms : List MemberEntry)
deriving DecidableEq, Repr

/-- A `/get_members` response. -/
structure MembersOut where
  status : Nat
  body : MembersBody
  tgCalls : Nat
  st : GSt

/-- The `/get_members` handler (lines 264–310). -/
def get_members (st : GSt) (inp : EnsureInput) (req : MembersReq)
    (resolveRes : Except String TEntity) (parts : List TParticipant) : MembersOut :=
  match ensure_telethon_client_ready_seq st inp with
  | (.error e, st1, _) =>
    { status := 503,
      body := .errMsg ("Telegram client not ready: " ++
        (match e with
         | .runtimeError m => m
         | .invalidStateError => "InvalidStateError")),
      tgCalls := 0, st := st1 }
  | (.ok _, st1, _) =>
    match req.entityIdent with
    | none =>
      { status := 400, body := .errMsg "Either entity_id or entity_username is required",
        tgCalls := 0, st := st1 }
    | some .other =>
      { status := 404, body := .errMsg "Entity not found or could not be resolved",
        tgCalls := 0, st := st1 }
    | some _ =>
      match resolveRes with
      | .error m => { status := 500, body := .errMsg m, tgCalls := 1, st := st1 }
      | .ok ent =>
        match membersGate ent with
        | .error _ => { status := 500, body := .errMsg "AttributeError", tgCalls := 1, st := st1 }
        | .ok false =>
          { status := 400,
            body := .errMsg "Cannot fetch members from this entity type (must be a group/channel you are a member of with permission) or it's a private chat",
            tgCalls := 1, st := st1 }
        | .ok true =>
          { status := 200, body := .entries (parts.map buildMember), tgCalls := 2, st := st1 }

/-! ### Concrete states and inputs used by the counterexamples and witnesses -/

/-- Handle store with handle 0 connected and authorized. -/
def hReady : Nat → HandleInfo := fun i => if i = 0 then ⟨true, true, false⟩ else ⟨false, false, false⟩

/-- Module state with a live, authorized client (handle 0). -/
def stReady : GSt :=
  { client := some 0, handles := hReady, nextH := 1, futureDone := true,
    futureExc := none, attempts := 1 }

/-- Handle store with every handle dead. -/
def hDead : Nat → HandleInfo := fun _ => ⟨false, false, false⟩

/-- Module state with a published but dead client (handle 0). -/
def stBroken : GSt :=
  { client := some 0, handles := hDead, nextH := 1, futureDone := true,
    futureExc := none, attempts := 1 }

/-- Handle store with handle 0 connected but no longer authorized. -/
def hStale : Nat → HandleInfo := fun i => if i = 0 then ⟨true, false, false⟩ else ⟨false, false, false⟩

/-- Module state with a stale client: connected, failing the authorization
probe. -/
def stStale : GSt :=
  { client := some 0, handles := hStale, nextH := 1, futureDone := true,
    futureExc := none, attempts := 1 }

/-- Module state like `stBroken` but with a stored future exception, as
left by an earlier step-2 failure. -/
def stBrokenExc : GSt :=
  { client := some 0, handles := hDead, nextH := 1, futureDone := true,
    futureExc := some msgReinitFailed, attempts := 1 }

/-- Call environment: no timeout, attempt succeeds. -/
def inpGood : EnsureInput := ⟨false, ⟨true, "", true⟩⟩

/-- Call environment: no timeout, `client.start()` raises with message
`"boom"`. -/
def inpBoom : EnsureInput := ⟨false, ⟨false, "boom", false⟩⟩

/-- A user dialog whose display name contains the digit keyword. -/
def u42 : TEntity := .user 42 (some "7seas") none

/-- A user entity the direct-resolution fallback returns. -/
def u99 : TEntity := .user 99 (some "x") none

/-- The scan entry produced for `u42` with keyword `"7"`. -/
def e42 : Entry := ⟨42, some "7seas", none, none, "user", false⟩

/-- The fallback entry produced for `u99`. -/
def e99 : Entry := ⟨99, some "x", none, none, "user", false⟩

/-! ### Theorems -/

/-- Unfolded form of one `initialize_and_connect_telethon_client` run: it
returns `start()` succeeded AND authorized, and the state with the global
`client` pointing at the freshly allocated handle. -/
theorem initC_eq (st : GSt) (o : AttemptOutcome) :
    initialize_and_connect_telethon_client st o =
      ((o.startOk && o.authOk),
       { st with client := some st.nextH,
                 handles := Function.update st.handles st.nextH ⟨o.startOk, o.authOk, false⟩,
                 nextH := st.nextH + 1,
                 attempts := st.attempts + 1 }) := by
  unfold initialize_and_connect_telethon_client
  cases ho : o.startOk <;>
    simp [ho, Function.update_idem, Function.update_same]

/-- With a published client, `ensure_telethon_client_ready` skips step 1 and
is exactly its step 2. -/
theorem ensureSeq_some (st : GSt) (inp : EnsureInput) (h : Nat) (hc : st.client = some h) :
    ensure_telethon_client_ready_seq st inp = ensureStep2 st inp.attempt := by
  unfold ensure_telethon_client_ready_seq
  rw [hc]

/-- The probe on a published client reads that handle's two status bits. -/
theorem probeOk_some (st : GSt) (h : Nat) (hc : st.client = some h) :
    probeOk st = ((st.handles h).connected && (st.handles h).authorized) := by
  unfold probeOk
  rw [hc]

/-- Step 2 with a passing probe returns at once: same state, no connect
sequence started. -/
theorem ensureStep2_pass (st : GSt) (o : AttemptOutcome) (hp : probeOk st = true) :
    ensureStep2 st o = (.ok (), st, 0) := by
  unfold ensureStep2
  rw [hp]
  simp

/-- Step 2 with a failing probe starts exactly one connect sequence. -/
theorem ensureStep2_fail_count (st : GSt) (o : AttemptOutcome) (hp : probeOk st = false) :
    (ensureStep2 st o).2.2 = 1 := by
  unfold ensureStep2
  rw [hp, initC_eq]
  cases hb : (o.startOk && o.authOk) <;> simp

/-- Step 2 with a failing probe succeeds exactly when the fresh attempt
connects and authorizes. -/
theorem ensureStep2_fail_ok (st : GSt) (o : AttemptOutcome) (hp : probeOk st = false) :
    ((ensureStep2 st o).1 = .ok () ↔ (o.startOk && o.authOk) = true) := by
  unfold ensureStep2
  rw [hp, initC_eq]
  cases hb : (o.startOk && o.authOk) <;> simp

/-- Step 2 with a failing probe and a failing attempt raises the fixed
wrapped `RuntimeError` — independent of the attempt's own error message. -/
theorem ensureStep2_fail_err (st : GSt) (o : AttemptOutcome) (hp : probeOk st = false)
    (hb : (o.startOk && o.authOk) = false) :
    (ensureStep2 st o).1 = .error (.runtimeError (msgReconnectWrapHead ++ msgReinitFailed)) := by
  unfold ensureStep2
  rw [hp, initC_eq, hb]
  simp

/-- After step 2 with a failing probe the global points at the fresh
handle. -/
theorem ensureStep2_fail_client (st : GSt) (o : AttemptOutcome) (hp : probeOk st = false) :
    (ensureStep2 st o).2.1.client = some st.nextH := by
  unfold ensureStep2
  rw [hp, initC_eq]
  cases hb : (o.startOk && o.authOk) <;> simp <;> split <;> simp

/-- After step 2 with a failing probe the fresh handle's bits mirror the
attempt outcome, and `disconnect()` has not been called on it. -/
theorem ensureStep2_fail_handle (st : GSt) (o : AttemptOutcome) (hp : probeOk st = false) :
    (ensureStep2 st o).2.1.handles st.nextH = ⟨o.startOk, o.authOk, false⟩ := by
  unfold ensureStep2
  rw [hp, initC_eq]
  cases hb : (o.startOk && o.authOk) <;> simp [Function.update_same] <;> split <;>
    simp [Function.update_same]

/-- Any `ensure_telethon_client_ready` call that raises while its connect
attempt failed leaves the global `client` published and failing the probe. -/
theorem ensureSeq_error_state (st : GSt) (inp : EnsureInput) (e : EnsureErr)
    (hE : (ensure_telethon_client_ready_seq st inp).1 = .error e)
    (hatt : (inp.attempt.startOk && inp.attempt.authOk) = false) :
    (∃ h, (ensure_telethon_client_ready_seq st inp).2.1.client = some h) ∧
      probeOk (ensure_telethon_client_ready_seq st inp).2.1 = false := by
  cases hc : st.client with
  | some h =>
    rw [ensureSeq_some st inp h hc] at hE ⊢
    cases hp : probeOk st with
    | true => rw [ensureStep2_pass st _ hp] at hE; simp at hE
    | false =>
      refine ⟨⟨st.nextH, ensureStep2_fail_client st _ hp⟩, ?_⟩
      rw [probeOk_some _ st.nextH (ensureStep2_fail_client st _ hp),
        ensureStep2_fail_handle st _ hp]
      exact hatt
  | none =>
    cases hf : st.futureDone with
    | true =>
      have hI := initC_eq st inp.attempt
      refine ⟨⟨st.nextH, ?_⟩, ?_⟩ <;>
        simp [ensure_telethon_client_ready_seq, hc, hf, hI, probeOk,
          Function.update_same, hatt]
    | false =>
      cases ht : inp.timeoutFires with
      | true =>
        refine ⟨⟨st.nextH, ?_⟩, ?_⟩ <;>
          simp [ensure_telethon_client_ready_seq, hc, hf, ht, probeOk,
            Function.update_same]
      | false =>
        have hI := initC_eq { st with client := none, futureDone := true } inp.attempt
        rw [hatt] at hI
        refine ⟨⟨st.nextH, ?_⟩, ?_⟩ <;>
          simp [ensure_telethon_client_ready_seq, hc, hf, ht, hI, probeOk,
            Function.update_same, hatt]

/-- Step-2 failure stores the inner generic message in the startup future
only when the future was still pending. -/
theorem ensureStep2_fail_exc (st : GSt) (o : AttemptOutcome) (hp : probeOk st = false)
    (hb : (o.startOk && o.authOk) = false) :
    (ensureStep2 st o).2.1.futureExc =
      (if st.futureDone then st.futureExc else some msgReinitFailed) := by
  unfold ensureStep2
  rw [hp, initC_eq, hb]
  cases hf : st.futureDone <;> simp [hf]

/-- Claim C3: for every `ensure_telethon_client_ready` call when a handle
exists, if the liveness probe passes (connected and authorized) the call
returns immediately with the cached handle, the state unchanged, and no
connect sequence; if the probe fails, the call performs exactly one full
connect-and-authenticate sequence and returns a handle exactly when that
fresh attempt succeeds. -/
theorem claimC3_probe_paths (st : GSt) (h : Nat) (inp : EnsureInput)
    (hc : st.client = some h) :
    ((st.handles h).connected = true → (st.handles h).authorized = true →
      ensure_telethon_client_ready_seq st inp = (.ok (), st, 0)) ∧
    (((st.handles h).connected && (st.handles h).authorized) = false →
      (ensure_telethon_client_ready_seq st inp).2.2 = 1 ∧
        ((ensure_telethon_client_ready_seq st inp).1 = .ok () ↔
          (inp.attempt.startOk && inp.attempt.authOk) = true)) := by
  constructor
  · intro h1 h2
    rw [ensureSeq_some st inp h hc]
    exact ensureStep2_pass st _ (by rw [probeOk_some st h hc, h1, h2]; rfl)
  · intro hpf
    rw [ensureSeq_some st inp h hc]
    have hp : probeOk st = false := by rw [probeOk_some st h hc]; exact hpf
    exact ⟨ensureStep2_fail_count st _ hp, ensureStep2_fail_ok st _ hp⟩

/-- Witness for C3 at a concrete ready state: the call is a no-op
returning the cached handle. -/
theorem claimC3_witness :
    ensure_telethon_client_ready_seq stReady inpGood = (.ok (), stReady, 0) :=
  (claimC3_probe_paths stReady 0 inpGood rfl).1 rfl rfl

/-- Claim C4: after any call that raised while its connect attempt failed,
the next `ensure_telethon_client_ready` call performs exactly one fresh
connect-and-authenticate sequence; it succeeds exactly when the fresh
attempt does, and on failure raises the freshly generated wrapped
`RuntimeError`, never replaying the stored error. -/
theorem claimC4_retry (st : GSt) (inp inp2 : EnsureInput) (e : EnsureErr)
    (hfail : (ensure_telethon_client_ready_seq st inp).1 = .error e)
    (hatt : (inp.attempt.startOk && inp.attempt.authOk) = false) :
    (ensure_telethon_client_ready_seq (ensure_telethon_client_ready_seq st inp).2.1 inp2).2.2 = 1 ∧
    ((ensure_telethon_client_ready_seq (ensure_telethon_client_ready_seq st inp).2.1 inp2).1 = .ok ()
      ↔ (inp2.attempt.startOk && inp2.attempt.authOk) = true) ∧
    ((inp2.attempt.startOk && inp2.attempt.authOk) = false →
      (ensure_telethon_client_ready_seq (ensure_telethon_client_ready_seq st inp).2.1 inp2).1 =
        .error (.runtimeError (msgReconnectWrapHead ++ msgReinitFailed))) := by
  obtain ⟨⟨h2, hc2⟩, hp2⟩ := ensureSeq_error_state st inp e hfail hatt
  rw [ensureSeq_some _ inp2 h2 hc2]
  exact ⟨ensureStep2_fail_count _ _ hp2, ensureStep2_fail_ok _ _ hp2,
    fun hb => ensureStep2_fail_err _ _ hp2 hb⟩

/-- Witness for C4: after a concrete failed attempt, the next call retries
once and succeeds. -/
theorem claimC4_witness :
    (ensure_telethon_client_ready_seq (ensure_telethon_client_ready_seq stBroken inpBoom).2.1 inpGood).2.2 = 1 ∧
    (ensure_telethon_client_ready_seq (ensure_telethon_client_ready_seq stBroken inpBoom).2.1 inpGood).1 = .ok () :=
  ⟨(claimC4_retry stBroken inpBoom inpGood
      (.runtimeError (msgReconnectWrapHead ++ msgReinitFailed)) (by decide) (by decide)).1,
   ((claimC4_retry stBroken inpBoom inpGood
      (.runtimeError (msgReconnectWrapHead ++ msgReinitFailed)) (by decide) (by decide)).2.1).mpr (by decide)⟩

/-- Counterexample to claim C8: a repair attempt whose `client.start()`
raises `"boom"` surfaces a fixed generic `RuntimeError` that does not
contain `"boom"` (neither message nor kind survive), and nothing is
recorded (the future already being resolved, its exception stays unset). -/
theorem claimC8_counterexample :
    (ensure_telethon_client_ready_seq stBroken inpBoom).1 =
      .error (.runtimeError (msgReconnectWrapHead ++ msgReinitFailed)) ∧
    strContains (msgReconnectWrapHead ++ msgReinitFailed) "boom" = false ∧
    inpBoom.attempt.startErrMsg = "boom" ∧
    (ensure_telethon_client_ready_seq stBroken inpBoom).2.1.futureExc = none := by decide

/-- Claim C8 (amended): when a repair attempt fails, the underlying error
is logged and swallowed inside the connect function; the caller receives a
`RuntimeError` with a fixed generic message independent of the original
error, and the only recording is the startup future's exception — set to
the generic inner message, only if the future was still pending, and never
read again. -/
theorem claimC8_amended (st : GSt) (h : Nat) (inp : EnsureInput)
    (hc : st.client = some h)
    (hpf : ((st.handles h).connected && (st.handles h).authorized) = false)
    (hbad : (inp.attempt.startOk && inp.attempt.authOk) = false) :
    (ensure_telethon_client_ready_seq st inp).1 =
      .error (.runtimeError (msgReconnectWrapHead ++ msgReinitFailed)) ∧
    (ensure_telethon_client_ready_seq st inp).2.1.futureExc =
      (if st.futureDone then st.futureExc else some msgReinitFailed) := by
  rw [ensureSeq_some st inp h hc]
  have hp : probeOk st = false := by rw [probeOk_some st h hc]; exact hpf
  exact ⟨ensureStep2_fail_err st _ hp hbad, ensureStep2_fail_exc st _ hp hbad⟩

/-- Witness for the amended C8 at a concrete broken state. -/
theorem claimC8_witness :
    (ensure_telethon_client_ready_seq stBrokenExc inpBoom).1 =
      .error (.runtimeError (msgReconnectWrapHead ++ msgReinitFailed)) ∧
    (ensure_telethon_client_ready_seq stBrokenExc inpBoom).2.1.futureExc =
      (if stBrokenExc.futureDone then stBrokenExc.futureExc else some msgReinitFailed) :=
  claimC8_amended stBrokenExc 0 inpBoom rfl (by decide) (by decide)

/-- Counterexample to claim C9: a successful reconnect from a stale handle
(handle 0, still connected but unauthorized) switches the global to the new
handle 1 and leaves handle 0 open — still connected, `disconnect()` never
called. -/
theorem claimC9_counterexample :
    (ensure_telethon_client_ready_seq stStale inpGood).1 = .ok () ∧
    (ensure_telethon_client_ready_seq stStale inpGood).2.1.client = some 1 ∧
    ((ensure_telethon_client_ready_seq stStale inpGood).2.1.handles 0).disconnected = false ∧
    ((ensure_telethon_client_ready_seq stStale inpGood).2.1.handles 0).connected = true := by decide

/-- Claim C9 (amended): when a reconnect succeeds while a prior handle
exists, the guard returns the new handle and the global points at it, but
the prior stale handle is merely dropped: its state — including its
never-set `disconnected` flag and its open connection — is untouched. -/
theorem claimC9_amended (st : GSt) (h : Nat) (inp : EnsureInput)
    (hc : st.client = some h)
    (hpf : ((st.handles h).connected && (st.handles h).authorized) = false)
    (hok : (inp.attempt.startOk && inp.attempt.authOk) = true)
    (hne : h ≠ st.nextH) :
    (ensure_telethon_client_ready_seq st inp).1 = .ok () ∧
    (ensure_telethon_client_ready_seq st inp).2.1.client = some st.nextH ∧
    (ensure_telethon_client_ready_seq st inp).2.1.handles h = st.handles h := by
  rw [ensureSeq_some st inp h hc]
  have hp : probeOk st = false := by rw [probeOk_some st h hc]; exact hpf
  unfold ensureStep2
  rw [hp, initC_eq, hok]
  refine ⟨by simp, by simp, by simp [Function.update_noteq hne]⟩

/-- Witness for the amended C9 at the concrete stale state. -/
theorem claimC9_witness :
    (ensure_telethon_client_ready_seq stStale inpGood).1 = .ok () ∧
    (ensure_telethon_client_ready_seq stStale inpGood).2.1.client = some stStale.nextH ∧
    (ensure_telethon_client_ready_seq stStale inpGood).2.1.handles 0 = stStale.handles 0 :=
  claimC9_amended stStale 0 inpGood rfl (by decide) (by decide) (by decide)

/-- Claim C7: each of the four endpoint handlers awaits
`ensure_telethon_client_ready` first; whenever that call raises (timeout,
authentication failure, transport failure, or the invalid-state slip), the
handler returns a 503 service-unavailable response, performs no Telegram
client operation, and the exception never escapes the handler. -/
theorem claimC7_guard (st : GSt) (inp : EnsureInput) (e : EnsureErr)
    (hfail : (ensure_telethon_client_ready_seq st inp).1 = .error e)
    (sreq : SearchReq) (dialogs : List TEntity) (res : Option TEntity)
    (mreq : MessagesReq) (mres : Except String TEntity) (msgs : List TMessage)
    (greq : MembersReq) (gres : Except String TEntity) (parts : List TParticipant) :
    (home st inp).1 = 503 ∧
    ((search_entities st inp sreq dialogs res).status = 503 ∧
      (search_entities st inp sreq dialogs res).tgCalls = 0) ∧
    ((get_messages st inp mreq mres msgs).status = 503 ∧
      (get_messages st inp mreq mres msgs).tgCalls = 0) ∧
    ((get_members st inp greq gres parts).status = 503 ∧
      (get_members st inp greq gres parts).tgCalls = 0) := by
  rcases hE : ensure_telethon_client_ready_seq st inp with ⟨r, st1, k⟩
  rw [hE] at hfail
  simp only at hfail
  subst hfail
  refine ⟨?_, ⟨?_, ?_⟩, ⟨?_, ?_⟩, ⟨?_, ?_⟩⟩ <;>
    simp [home, search_entities, get_messages, get_members, hE]

/-- Witness for C7: all four handlers answer 503 on a concrete failing
state. -/
theorem claimC7_witness :
    (home stBroken inpBoom).1 = 503 ∧
    (search_entities stBroken inpBoom ⟨some "x", 5⟩ [] none).status = 503 ∧
    (get_messages stBroken inpBoom ⟨some (.str "x"), 10, 0⟩ (.ok u42) []).status = 503 ∧
    (get_members stBroken inpBoom ⟨some (.str "x"), 10⟩ (.ok u42) []).status = 503 := by
  have T := claimC7_guard stBroken inpBoom
    (.runtimeError (msgReconnectWrapHead ++ msgReinitFailed)) (by decide)
    ⟨some "x", 5⟩ [] none ⟨some (.str "x"), 10, 0⟩ (.ok u42) [] ⟨some (.str "x"), 10⟩ (.ok u42) []
  exact ⟨T.1, T.2.1.1, T.2.2.1.1, T.2.2.2.1⟩

/-- The dialog-scan loop yields at most `max limit (|acc| + 1)` entries:
the break fires only after an append, so an already-met (or non-positive)
limit still lets one entry through. -/
theorem searchScan_length_le (kw : String) (lim : Int) (es : List TEntity) :
    ∀ (acc rs : List Entry), searchScan kw lim es acc = .ok rs →
      (rs.length : Int) ≤ max lim ((acc.length : Int) + 1) := by
  induction es with
  | nil =>
    intro acc rs hE
    simp only [searchScan] at hE
    cases hE
    exact le_trans (by omega) (le_max_right lim _)
  | cons e es ih =>
    intro acc rs hE
    simp only [searchScan] at hE
    cases hD : scanDialog kw e with
    | error u => rw [hD] at hE; cases hE
    | ok oe =>
      rw [hD] at hE
      cases oe with
      | none => exact ih acc rs hE
      | some entry =>
        simp only at hE
        by_cases hl : lim ≤ ((acc ++ [entry]).length : Int)
        · rw [if_pos hl] at hE
          cases hE
          simp only [List.length_append, List.length_singleton]
          exact le_trans (by push_cast; omega) (le_max_right lim _)
        · rw [if_neg hl] at hE
          have h2 := ih (acc ++ [entry]) rs hE
          simp only [List.length_append, List.length_singleton] at h2 hl
          have hlim : ((acc.length : Int) + 1 + 1) ≤ lim := by push_cast at h2 hl ⊢; omega
          calc (rs.length : Int) ≤ max lim ((acc.length : Int) + 1 + 1) := by
                push_cast at h2 ⊢; omega
            _ = lim := by omega
            _ ≤ max lim ((acc.length : Int) + 1) := le_max_left lim _

/-- Claim C10 (amended): the dialog-scan loop contributes at most
`max n 1` entries (the break runs only after an append, so `n <= 0` still
admits one), and a successful `/search_entities` response has at most
`max n 1 + 1` entries including the direct-resolution fallback. -/
theorem claimC10_amended (kw : String) (lim : Int) (dialogs : List TEntity)
    (rs : List Entry) (st : GSt) (inp : EnsureInput) (req : SearchReq)
    (dlgs : List TEntity) (res : Option TEntity) (out : List Entry)
    (h1 : searchScan kw lim dialogs [] = .ok rs)
    (h2 : (search_entities st inp req dlgs res).body = .entries out) :
    (rs.length : Int) ≤ max lim 1 ∧ (out.length : Int) ≤ max req.limit 1 + 1 := by
  constructor
  · simpa using searchScan_length_le kw lim dialogs [] rs h1
  · unfold search_entities at h2
    rcases hE : ensure_telethon_client_ready_seq st inp with ⟨r, st1, k⟩
    rw [hE] at h2
    cases r with
    | error e => simp at h2
    | ok u =>
      cases hk : req.keyword with
      | none => simp [hk] at h2
      | some kw2 =>
        by_cases hkE : kw2.isEmpty
        · simp [hk, hkE] at h2
        · cases hS : searchScan kw2 req.limit dlgs [] with
          | error u2 => simp [hk, hkE, hS] at h2
          | ok rs2 =>
            have hlen : (rs2.length : Int) ≤ max req.limit 1 := by
              simpa using searchScan_length_le kw2 req.limit dlgs [] rs2 hS
            by_cases hF : fallbackWanted kw2 rs2 = true
            · cases res with
              | none =>
                simp [hk, hkE, hS, hF] at h2
                subst h2
                omega
              | some ent =>
                cases hRE : resolveEntry ent with
                | none =>
                  simp [hk, hkE, hS, hF, hRE] at h2
                  subst h2
                  omega
                | some entry =>
                  simp [hk, hkE, hS, hF, hRE] at h2
                  subst h2
                  simp only [List.length_append, List.length_singleton]
                  push_cast
                  omega
            · have hF2 : fallbackWanted kw2 rs2 = false := by
                simpa using hF
              simp [hk, hkE, hS, hF2] at h2
              subst h2
              omega

/-- Counterexample to claim C10: with `limit = 0` and one matching dialog,
the scan loop contributes one entry (more than `n = 0`) and the 200
response carries two entries (more than `n + 1 = 1`). -/
theorem claimC10_counterexample :
    searchScan "7" 0 [u42] [] = .ok [e42] ∧
    (search_entities stReady inpGood ⟨some "7", 0⟩ [u42] (some u99)).status = 200 ∧
    (search_entities stReady inpGood ⟨some "7", 0⟩ [u42] (some u99)).body = .entries [e42, e99] := by
  refine ⟨by decide, by decide, by decide⟩

/-- Witness for the amended C10 at the concrete `limit = 0` request. -/
theorem claimC10_witness :
    (([e42].length : Int) ≤ max 0 1) ∧ (([e42, e99].length : Int) ≤ max 0 1 + 1) :=
  claimC10_amended "7" 0 [u42] [e42] stReady inpGood ⟨some "7", 0⟩ [u42] (some u99)
    [e42, e99] (by decide) (by decide)

/-- Claim C5: loading `boot.py` always raises `ImportError` — `app.py`
defines `client` but neither `startup_telethon_client` nor
`connection_future`, and the from-import precedes the `before_serve`
definition, so the eager startup hook can never run. -/
theorem claimC5_bootImport :
    loadBootModule = .importError "startup_telethon_client" ∧
    pythonFromImport appModuleNames ["client"] = none := by decide

/-- Counterexample to claim C1: two concurrent
`ensure_telethon_client_ready` calls from the `client = None` state reach a
configuration with two connect-and-authenticate sequences started and two
simultaneously in flight (the second caller sees the published
mid-construction client, fails the probe, and starts its own attempt). -/
theorem claimC1_counterexample :
    (runEvs oGood2 (confN 2) [.run 0, .run 2, .run 1]).g.attempts = 2 ∧
    inFlight (runEvs oGood2 (confN 2) [.run 0, .run 2, .run 1]) = 2 := by decide

/-- Claim C1 (amended): concurrent `ensure_telethon_client_ready` calls
while `client` is `None` are not serialized.  A second caller that still
sees `client = None` crashes with `InvalidStateError` from resolving the
already-resolved startup future — after having scheduled a second startup
task — so two connect-and-authenticate sequences run and are in flight
simultaneously, and the two callers finish with different results (one
`ok`, one `InvalidStateError`). -/
theorem claimC1_amended :
    cosAt (runEvs oGood2 (confN 2) [.run 0, .run 1, .run 2, .run 3]) 1 =
      .done (.err .invalidStateError) ∧
    (runEvs oGood2 (confN 2) [.run 0, .run 1, .run 2, .run 3]).g.attempts = 2 ∧
    inFlight (runEvs oGood2 (confN 2) [.run 0, .run 1, .run 2, .run 3]) = 2 ∧
    cosAt (runEvs oGood2 (confN 2)
      [.run 0, .run 1, .run 2, .run 3, .run 2, .run 3, .run 2, .run 0, .run 0]) 0 =
      .done .ok ∧
    cosAt (runEvs oGood2 (confN 2)
      [.run 0, .run 1, .run 2, .run 3, .run 2, .run 3, .run 2, .run 0, .run 0]) 1 =
      .done (.err .invalidStateError) := by decide

/-- Counterexample to claim C2: one step into the startup task the global
`client` already points at handle 0 while that handle is still unconnected
and its connect sequence is in flight — the handle is published
mid-construction. -/
theorem claimC2_counterexample :
    (runEvs oGood1 (confN 1) [.run 0, .run 1]).g.client = some 0 ∧
    ((runEvs oGood1 (confN 1) [.run 0, .run 1]).g.handles 0).connected = false ∧
    inFlight (runEvs oGood1 (confN 1) [.run 0, .run 1]) = 1 := by decide

/-- Claim C2 (amended): the global `client` is published at instance
creation — the first segment of every connect sequence sets `client` to the
new, still-unconnected handle — so readers can observe a mid-construction
handle; the sequence itself reports success only after both connect and
authorization completed, as the completed run shows. -/
theorem claimC2_amended :
    (∀ (o : List AttemptOutcome) (g : GSt),
      (startAttempt o g).2.2.client = some g.nextH ∧
      ((startAttempt o g).2.2.handles g.nextH).connected = false) ∧
    cosAt (runEvs oGood1 (confN 1) [.run 0, .run 1, .run 1, .run 1]) 1 =
      .done (.taskRes true) ∧
    ((runEvs oGood1 (confN 1) [.run 0, .run 1, .run 1, .run 1]).g.handles 0).connected = true ∧
    ((runEvs oGood1 (confN 1) [.run 0, .run 1, .run 1, .run 1]).g.handles 0).authorized = true := by
  refine ⟨fun o g => ⟨rfl, ?_⟩, by decide, by decide, by decide⟩
  simp [startAttempt, Function.update_same]

/-- Counterexample to claim C6: when the first caller's 120 s wait times
out, the caller does fail with the startup-timed-out error, but
`asyncio.wait_for` cancels the in-flight startup task — the attempt is not
allowed to complete independently. -/
theorem claimC6_counterexample :
    cosAt (runEvs oGood1 (confN 1) [.run 0, .run 1, .timeout 0]) 0 =
      .done (.err (.runtimeError msgInitTimeout)) ∧
    cosAt (runEvs oGood1 (confN 1) [.run 0, .run 1, .timeout 0]) 1 = .done .cancelled := by decide

/-- Claim C6 (amended): only the caller that created the startup task
waits, bounded by the 120 s `wait_for` (within the spec's 60–120 s range),
and on expiry it receives the startup-timed-out `RuntimeError` while the
in-flight attempt is cancelled rather than left to finish; a caller
arriving during an in-flight attempt does not wait on it at all — it starts
its own connect sequence immediately. -/
theorem claimC6_amended :
    startupWaitTimeoutSeconds = 120 ∧
    cosAt (runEvs oGood1 (confN 1) [.run 0, .run 1, .timeout 0]) 0 =
      .done (.err (.runtimeError msgInitTimeout)) ∧
    cosAt (runEvs oGood1 (confN 1) [.run 0, .run 1, .timeout 0]) 1 = .done .cancelled ∧
    cosAt (runEvs oGood2 (confN 2) [.run 0, .run 2, .run 1]) 1 = .eInitAfterStart 1 1 ∧
    cosAt (runEvs oGood2 (confN 2) [.run 0, .run 2, .run 1]) 2 = .tAfterStart 0 0 := by decide
